import Mathlib

/-!
# Verification of the TF2 player-joined notifier core logic

Shallow embedding of the state-reconciliation ("all" / presence mode) and
throttle-gating ("threshold" mode) logic of the notifier, translated from
`tf2_player_joined_notifier_aws/all_mode.py`, `threshold_mode.py`,
`timer.py`, `utility.py` and `constants.py`.

External collaborators are modelled explicitly:
* the DynamoDB table holding already-notified player names is a list of
  strings (the scan result order);
* the S3 timer blob is an `Option Nat` holding the parsed integer
  epoch-second target time (`none` models `NoSuchKey`);
* the live server query is an input of type `FetchResult` (success with
  count, raw player tuples and server name, or a raised exception);
* outbound side effects (store deletes/puts, blob uploads, SNS publishes,
  the server query) are recorded in an event trace in program order.

Time is modelled in integer epoch seconds (`current_time_seconds_int` in
the source).  The source computes the new target as
`int(current_time_seconds_float + float(minutes * 60))`, which equals
`current_time_seconds_int + minutes * 60` because the addend is integral
and the times are non-negative.  The human-readable rendering
(`time.ctime`) is abstracted as the decimal epoch value; it only appears
inside message text.

A result of `Except.error e` models a Python exception escaping the
invocation uncaught; `Except.ok env` models a normal return of the status
envelope.
-/

namespace TF2Notifier

/-- `generate_return_message` in `utility.py`: the status envelope
returned to the Lambda invoker. -/
structure ResultEnvelope where
  statusCode : Nat
  body : String
deriving DecidableEq, Repr

/-- `constants.StatusCodes.SUCCESS`. -/
def SUCCESS_STATUS_CODE : Nat := 200

/-- `constants.StatusCodes.FAILURE`. -/
def FAILURE_STATUS_CODE : Nat := 300

/-- `constants.Misc.MINUTES_TO_SECONDS_MULTIPLIER`. -/
def MINUTES_TO_SECONDS_MULTIPLIER : Nat := 60

/-- `constants.Misc.EMAIL_SUBJECT_PREFIX` (the literal `"[URGENT]"`). -/
def emailSubjectTag : String := "[URGENT]"

/-- `constants.Misc.PROJECT_NAME`. -/
def PROJECT_NAME : String := "TF2 Player Joined Notifier"

/-- `utility.generate_return_message`. -/
def generate_return_message (statusCode : Nat) (statusBody : String) : ResultEnvelope :=
  ⟨statusCode, statusBody⟩

/-- `utility.convert_minutes_to_seconds`. -/
def convert_minutes_to_seconds (minutes : Nat) : Nat :=
  minutes * MINUTES_TO_SECONDS_MULTIPLIER

/-- The configuration values used by the two core modes
(`config.Config`, after the out-of-scope loader has run). -/
structure Config where
  serverIp : String
  playerCountThreshold : Nat
  thresholdTimerMinutes : Nat
deriving Repr

/-- Observable side effects of one invocation, in program order. -/
inductive Event where
  | queryServer
  | dbDelete (name : String)
  | dbPut (name : String)
  | s3Put (targetTime : Nat)
  | notify (subject : String) (message : String)
deriving DecidableEq, Repr

/-- Result of the live player query `srv.getPlayers()` plus
`srv.info.get("name")`: either the raw `(count, players)` data, or an
exception raised by the query (which the source never catches). -/
inductive FetchResult where
  | ok (playerCount : Nat) (players : List (Nat × String)) (serverName : String)
  | err (msg : String)
deriving DecidableEq, Repr

/-- The name-extraction loop shared by both modes: keep `player[1]` for
every tuple whose name field is not the empty string
(`all_mode.py` lines 34 to 37). -/
def extractNames : List (Nat × String) → List String
  | [] => []
  | p :: rest => if p.2 = "" then extractNames rest else p.2 :: extractNames rest

/-- `time.ctime` rendering abstracted as the decimal epoch value; the
`" (UTC)"` suffix is from `TimeType.current_time_human_readable`. -/
def timeHumanReadable (t : Nat) : String := toString t ++ " (UTC)"

/-- Filter of the trace keeping only the outbound notifications. -/
def notifyEvents (events : List Event) : List Event :=
  events.filter fun e => match e with
    | .notify _ _ => true
    | _ => false

/-! ## Presence-reconciliation ("all") mode, `all_mode.py` -/

/-- The disconnect-cleanup loop (`all_mode.py` lines 75 to 83): walk the
scan result; keep every item whose name is still on the server, delete
(with a `dbDelete` event) every item whose name is not.  Returns the
table contents after the loop and the delete events in loop order. -/
def deletePhase (currentPlayerNames : List String) :
    List String → List String × List Event
  | [] => ([], [])
  | n :: rest =>
    let r := deletePhase currentPlayerNames rest
    if n ∈ currentPlayerNames then (n :: r.1, r.2)
    else (r.1, Event.dbDelete n :: r.2)

/-- Result of the new-player loop: table contents, the
`pending_player_names` list, and the `dbPut` events. -/
structure InsertResult where
  db : List String
  pending : List String
  events : List Event
deriving DecidableEq, Repr

/-- The new-player loop (`all_mode.py` lines 86 to 98): for each current
player name in order, `get_item`; on a miss, append the name to the
pending list and `put_item` it eagerly, so later occurrences of the same
name hit the table. -/
def insertPhase (db : List String) : List String → InsertResult
  | [] => ⟨db, [], []⟩
  | n :: rest =>
    if n ∈ db then insertPhase db rest
    else
      let r := insertPhase (db ++ [n]) rest
      ⟨r.db, n :: r.pending, Event.dbPut n :: r.events⟩

/-- The name-list block of `utility.format_server_info_to_string`
(the `"[" + name + "]\n"` loop). -/
def formatPlayerNameLines : List String → String
  | [] => ""
  | n :: rest => "[" ++ n ++ "]\n" ++ formatPlayerNameLines rest

/-- `utility.format_server_info_to_string`, ALL-mode template. -/
def format_server_info_all (cfg : Config) (serverName : String)
    (playerCount : Nat) (playerNames : List String) : String :=
  "Player has joined the server\n\n" ++
  "Server name: " ++ serverName ++ "\n" ++
  "IP: " ++ cfg.serverIp ++ "\n" ++
  "Player count: " ++ toString playerCount ++ "\n" ++
  "Player names:\n" ++ formatPlayerNameLines playerNames

/-- Subject line of the ALL-mode join notification. -/
def joinSubject : String := emailSubjectTag ++ "Player has joined the server"

/-- Outcome of one `all_mode` reconciliation: final table contents, the
`pending_player_names` list (the joined players), the event trace and the
returned envelope. -/
structure AllModeOutcome where
  db : List String
  pending : List String
  events : List Event
  ret : ResultEnvelope
deriving DecidableEq, Repr

/-- `all_mode.all_mode`, after the snapshot has been fetched: the
reconciliation of the snapshot `(playerCount, players)` against the
scanned table contents `db0` (lines 42 to 115 of `all_mode.py`). -/
def all_mode_core (cfg : Config) (playerCount : Nat)
    (players : List (Nat × String)) (serverName : String)
    (db0 : List String) : AllModeOutcome :=
  let currentPlayerNames := extractNames players
  if playerCount = 0 then
    if db0.isEmpty then
      ⟨db0, [], [], generate_return_message SUCCESS_STATUS_CODE "There were no players"⟩
    else
      ⟨[], [], db0.map Event.dbDelete,
        generate_return_message SUCCESS_STATUS_CODE
          "There were no players in the server. Cleared DB"⟩
  else
    let afterDelete :=
      if db0.isEmpty then (db0, []) else deletePhase currentPlayerNames db0
    let r := insertPhase afterDelete.1 currentPlayerNames
    if r.pending.isEmpty then
      ⟨r.db, r.pending, afterDelete.2 ++ r.events,
        generate_return_message SUCCESS_STATUS_CODE "Don\x27t need to notify"⟩
    else
      ⟨r.db, r.pending,
        afterDelete.2 ++ r.events ++
          [Event.notify joinSubject
            (format_server_info_all cfg serverName playerCount r.pending)],
        generate_return_message SUCCESS_STATUS_CODE "Email sent successfully"⟩

/-- Outcome of a whole ALL-mode invocation including the fetch. -/
structure AllModeRun where
  db : List String
  events : List Event
  result : Except String ResultEnvelope
deriving Repr

/-- `all_mode.all_mode` including the server query (lines 29 to 31):
the query is not wrapped in any `try`, so a query exception escapes the
invocation (`Except.error`). -/
def all_mode (cfg : Config) (fetch : FetchResult) (db0 : List String) :
    AllModeRun :=
  match fetch with
  | .err e => ⟨db0, [Event.queryServer], Except.error e⟩
  | .ok playerCount players serverName =>
    let r := all_mode_core cfg playerCount players serverName db0
    ⟨r.db, Event.queryServer :: r.events, Except.ok r.ret⟩

/-! ## Threshold-gated mode, `threshold_mode.py` and `timer.py` -/

/-- External inputs of one threshold-mode evaluation: the current time
(integer epoch seconds), whether the timer download raises a
non-`NoSuchKey` exception (with its text), the server-query result, and
whether `upload_file` raises (with its text). -/
structure ThresholdInput where
  now : Nat
  downloadErrMsg : Option String
  fetch : FetchResult
  uploadErrMsg : Option String
deriving Repr

/-- Outcome of one threshold-mode evaluation: the persisted timer blob
after the run, the event trace, and the result (an `Except.error` models
an exception escaping the invocation uncaught). -/
structure ThresholdRun where
  timer : Option Nat
  events : List Event
  result : Except String ResultEnvelope
deriving Repr

/-- Subject line used by `utility.handle_error`. -/
def errorSubject : String :=
  emailSubjectTag ++ PROJECT_NAME ++ " had an error"

/-- Message of the non-`NoSuchKey` download failure branch. -/
def downloadErrText (e : String) : String :=
  "Caught exception when downloading timer file from S3. Exception: " ++ e

/-- Message of the `upload_file` failure branches. -/
def uploadErrText (e : String) : String :=
  "Caught exception when uploading. Exception: " ++ e

/-- Message of the `if not target_time` branch. -/
def emptyTimerText : String := "Timer file was empty"

/-- Message of the timer-initialization notification and envelope. -/
def noTimerFileText (newTargetTime : Nat) : String :=
  "No timer file was found on S3. Created one with the time " ++
  timeHumanReadable newTargetTime ++ " and uploaded it."

/-- `utility.handle_error`: publish one error notification and return a
`300` envelope carrying the same message. -/
def handle_error (timer : Option Nat) (errorMessage : String) : ThresholdRun :=
  ⟨timer, [Event.notify errorSubject errorMessage],
    Except.ok (generate_return_message 300 errorMessage)⟩

/-- Subject line of the timer-initialization notification in `timer.py`. -/
def noTimerFileSubject : String :=
  emailSubjectTag ++ "No timer file found on S3"

/-- `timer.handle_timer_file_not_found`: write a new timer file holding
`now + cooldownMinutes*60`, upload it, notify, and return a FAILURE
(`300`) envelope; an upload exception goes through `handle_error`
without persisting anything. -/
def handle_timer_file_not_found (cfg : Config) (currentTime : Nat)
    (uploadErrMsg : Option String) : ThresholdRun :=
  let newTargetTime :=
    currentTime + convert_minutes_to_seconds cfg.thresholdTimerMinutes
  match uploadErrMsg with
  | some e => handle_error none (uploadErrText e)
  | none =>
    ⟨some newTargetTime,
      [Event.s3Put newTargetTime,
        Event.notify noTimerFileSubject (noTimerFileText newTargetTime)],
      Except.ok (generate_return_message FAILURE_STATUS_CODE
        (noTimerFileText newTargetTime))⟩

/-- `utility.format_server_info_to_string`, THRESHOLD-mode template. -/
def format_server_info_threshold (cfg : Config) (serverName : String)
    (playerCount : Nat) (newTargetTime : Nat) : String :=
  "The player count has reached the threshold: " ++
  toString cfg.playerCountThreshold ++ "\n\n" ++
  "Server name: " ++ serverName ++ "\n" ++
  "IP: " ++ cfg.serverIp ++ "\n" ++
  "Player count: " ++ toString playerCount ++ "\n\n" ++
  "The next check will happen after " ++ timeHumanReadable newTargetTime ++ "\n"

/-- Subject line of the threshold-crossing notification. -/
def thresholdSubject : String :=
  emailSubjectTag ++ "Player count has reached the threshold"

/-- Body of the suppressed-branch envelope. -/
def suppressedBody : String :=
  "We haven\x27t passed the target time yet. No need to do anything."

/-- Body of the below-threshold envelope. -/
def belowThresholdBody (playerCount threshold : Nat) : String :=
  "There are " ++ toString playerCount ++ " players, but the threshold is " ++
  toString threshold ++ ", so don\x27t send an email"

/-- `threshold_mode.threshold_mode`, given the persisted timer blob
(`none` models `NoSuchKey`) and the external inputs.  Mirrors the source
control flow: absent file; download error; empty-parse check
(`if not target_time`); inclusive passed-target comparison
(`current >= target`); server query (exceptions uncaught); the count
versus threshold split; and the persist-then-notify crossing branch. -/
def threshold_mode (cfg : Config) (timer : Option Nat)
    (inp : ThresholdInput) : ThresholdRun :=
  match timer with
  | none => handle_timer_file_not_found cfg inp.now inp.uploadErrMsg
  | some targetTimeSec =>
    match inp.downloadErrMsg with
    | some e =>
      handle_error (some targetTimeSec) (downloadErrText e)
    | none =>
      if targetTimeSec = 0 then
        handle_error (some targetTimeSec) emptyTimerText
      else if inp.now < targetTimeSec then
        ⟨some targetTimeSec, [],
          Except.ok (generate_return_message SUCCESS_STATUS_CODE suppressedBody)⟩
      else
        match inp.fetch with
        | .err e => ⟨some targetTimeSec, [Event.queryServer], Except.error e⟩
        | .ok playerCount _players serverName =>
          if playerCount = 0 then
            ⟨some targetTimeSec, [Event.queryServer],
              Except.ok (generate_return_message SUCCESS_STATUS_CODE
                "There were no players")⟩
          else if playerCount < cfg.playerCountThreshold then
            ⟨some targetTimeSec, [Event.queryServer],
              Except.ok (generate_return_message SUCCESS_STATUS_CODE
                (belowThresholdBody playerCount cfg.playerCountThreshold))⟩
          else
            let newTargetTime :=
              inp.now + convert_minutes_to_seconds cfg.thresholdTimerMinutes
            match inp.uploadErrMsg with
            | some e =>
              ⟨some targetTimeSec,
                Event.queryServer ::
                  [Event.notify errorSubject (uploadErrText e)],
                Except.ok (generate_return_message 300 (uploadErrText e))⟩
            | none =>
              ⟨some newTargetTime,
                [Event.queryServer, Event.s3Put newTargetTime,
                  Event.notify thresholdSubject
                    (format_server_info_threshold cfg serverName playerCount
                      newTargetTime)],
                Except.ok (generate_return_message SUCCESS_STATUS_CODE
                  "Email sent successfully")⟩

/-- The persisted timer after one evaluation. -/
def timerAfter (cfg : Config) (timer : Option Nat) (inp : ThresholdInput) :
    Option Nat :=
  (threshold_mode cfg timer inp).timer

/-- Persisted timer after a sequence of evaluations, each with its own
external inputs, sharing the persisted blob. -/
def timerAfterSeq (cfg : Config) (timer : Option Nat) :
    List ThresholdInput → Option Nat
  | [] => timer
  | inp :: rest => timerAfterSeq cfg (timerAfter cfg timer inp) rest

/-- Order on persisted timer states: a present value never disappears
and never decreases. -/
def timerAdvances : Option Nat → Option Nat → Prop
  | some t, some t2 => t ≤ t2
  | some _, none => False
  | none, _ => True

/-! ## Helper lemmas about the presence-mode loops -/

theorem deletePhase_db_mem (names : List String) :
    ∀ (db : List String) (n : String),
      n ∈ (deletePhase names db).1 ↔ n ∈ db ∧ n ∈ names := by
  intro db
  induction db with
  | nil => intro n; simp [deletePhase]
  | cons m rest ih =>
    intro n
    by_cases hm : m ∈ names
    · simp only [deletePhase, if_pos hm, List.mem_cons, ih]
      constructor
      · rintro (rfl | ⟨h1, h2⟩)
        · exact ⟨Or.inl rfl, hm⟩
        · exact ⟨Or.inr h1, h2⟩
      · rintro ⟨rfl | h1, h2⟩
        · exact Or.inl rfl
        · exact Or.inr ⟨h1, h2⟩
    · simp only [deletePhase, if_neg hm, List.mem_cons, ih]
      constructor
      · rintro ⟨h1, h2⟩; exact ⟨Or.inr h1, h2⟩
      · rintro ⟨rfl | h1, h2⟩
        · exact absurd h2 hm
        · exact ⟨h1, h2⟩

theorem deletePhase_events_delete_only (names : List String) :
    ∀ (db : List String) (e : Event), e ∈ (deletePhase names db).2 →
      ∃ m, e = Event.dbDelete m := by
  intro db
  induction db with
  | nil => intro e he; simp [deletePhase] at he
  | cons m rest ih =>
    intro e he
    by_cases hm : m ∈ names
    · simp only [deletePhase, if_pos hm] at he
      exact ih e he
    · simp only [deletePhase, if_neg hm, List.mem_cons] at he
      rcases he with rfl | he
      · exact ⟨m, rfl⟩
      · exact ih e he

theorem insertPhase_db_mem :
    ∀ (names db : List String) (n : String),
      n ∈ (insertPhase db names).db ↔ n ∈ db ∨ n ∈ names := by
  intro names
  induction names with
  | nil => intro db n; simp [insertPhase]
  | cons m rest ih =>
    intro db n
    by_cases hm : m ∈ db
    · simp only [insertPhase, if_pos hm, ih, List.mem_cons]
      constructor
      · rintro (h | h)
        · exact Or.inl h
        · exact Or.inr (Or.inr h)
      · rintro (h | rfl | h)
        · exact Or.inl h
        · exact Or.inl hm
        · exact Or.inr h
    · simp only [insertPhase, if_neg hm, ih, List.mem_append,
        List.mem_singleton, List.mem_cons]
      tauto

theorem insertPhase_pending_mem :
    ∀ (names db : List String) (n : String),
      n ∈ (insertPhase db names).pending ↔ n ∈ names ∧ n ∉ db := by
  intro names
  induction names with
  | nil => intro db n; simp [insertPhase]
  | cons m rest ih =>
    intro db n
    by_cases hm : m ∈ db
    · simp only [insertPhase, if_pos hm, ih, List.mem_cons]
      constructor
      · rintro ⟨h1, h2⟩; exact ⟨Or.inr h1, h2⟩
      · rintro ⟨rfl | h1, h2⟩
        · exact absurd hm h2
        · exact ⟨h1, h2⟩
    · simp only [insertPhase, if_neg hm, ih, List.mem_cons, List.mem_append,
        List.mem_singleton, List.not_mem_nil, or_false]
      constructor
      · rintro (rfl | ⟨h1, h2⟩)
        · exact ⟨Or.inl rfl, hm⟩
        · exact ⟨Or.inr h1, fun hdb => h2 (Or.inl hdb)⟩
      · rintro ⟨h1 | h1, h2⟩
        · exact Or.inl h1
        · rcases eq_or_ne n m with rfl | hnm
          · exact Or.inl rfl
          · refine Or.inr ⟨h1, ?_⟩
            rintro (hdb | rfl)
            · exact h2 hdb
            · exact hnm rfl

theorem insertPhase_pending_nodup :
    ∀ (names db : List String), (insertPhase db names).pending.Nodup := by
  intro names
  induction names with
  | nil => intro db; simp [insertPhase]
  | cons m rest ih =>
    intro db
    by_cases hm : m ∈ db
    · simpa only [insertPhase, if_pos hm] using ih db
    · simp only [insertPhase, if_neg hm, List.nodup_cons]
      refine ⟨fun hmem => ?_, ih (db ++ [m])⟩
      have := (insertPhase_pending_mem rest (db ++ [m]) m).mp hmem
      exact this.2 (List.mem_append.mpr (Or.inr (List.mem_singleton.mpr rfl)))

theorem insertPhase_events_eq :
    ∀ (names db : List String),
      (insertPhase db names).events = (insertPhase db names).pending.map Event.dbPut := by
  intro names
  induction names with
  | nil => intro db; simp [insertPhase]
  | cons m rest ih =>
    intro db
    by_cases hm : m ∈ db
    · simpa only [insertPhase, if_pos hm] using ih db
    · simp only [insertPhase, if_neg hm, List.map_cons]
      exact congrArg (List.cons (Event.dbPut m)) (ih (db ++ [m]))

theorem notifyEvents_append (a b : List Event) :
    notifyEvents (a ++ b) = notifyEvents a ++ notifyEvents b := by
  simp [notifyEvents]

theorem notifyEvents_map_dbPut (l : List String) :
    notifyEvents (l.map Event.dbPut) = [] := by
  induction l with
  | nil => rfl
  | cons m rest ih => simp [notifyEvents, List.filter_cons, ih]

theorem notifyEvents_map_dbDelete (l : List String) :
    notifyEvents (l.map Event.dbDelete) = [] := by
  induction l with
  | nil => rfl
  | cons m rest ih => simp [notifyEvents, List.filter_cons, ih]

theorem notifyEvents_deletePhase (names : List String) :
    ∀ db : List String, notifyEvents (deletePhase names db).2 = [] := by
  intro db
  induction db with
  | nil => rfl
  | cons m rest ih =>
    by_cases hm : m ∈ names
    · simpa only [deletePhase, if_pos hm] using ih
    · simpa only [deletePhase, if_neg hm, notifyEvents, List.filter_cons] using ih

theorem deletePhase_no_dbPut (names : List String) (db : List String)
    (n : String) : Event.dbPut n ∉ (deletePhase names db).2 := by
  intro hmem
  rcases deletePhase_events_delete_only names db _ hmem with ⟨m, hm⟩
  exact Event.noConfusion hm

/-- In the positive-count branch, the outcome projections of
`all_mode_core` are the delete phase followed by the insert phase,
followed by the join notification when the pending list is non-empty.
(The `is_db_empty` guard in the source is redundant there: on an empty
scan the delete phase is a no-op.) -/
theorem all_mode_core_pos_proj (cfg : Config) (playerCount : Nat)
    (players : List (Nat × String)) (serverName : String)
    (db0 : List String) (h : ¬ playerCount = 0) :
    (all_mode_core cfg playerCount players serverName db0).db =
      (insertPhase (deletePhase (extractNames players) db0).1
        (extractNames players)).db ∧
    (all_mode_core cfg playerCount players serverName db0).pending =
      (insertPhase (deletePhase (extractNames players) db0).1
        (extractNames players)).pending ∧
    (all_mode_core cfg playerCount players serverName db0).events =
      (deletePhase (extractNames players) db0).2 ++
        (insertPhase (deletePhase (extractNames players) db0).1
          (extractNames players)).events ++
        (if (insertPhase (deletePhase (extractNames players) db0).1
              (extractNames players)).pending.isEmpty then []
         else
           [Event.notify joinSubject
             (format_server_info_all cfg serverName playerCount
               (insertPhase (deletePhase (extractNames players) db0).1
                 (extractNames players)).pending)]) := by
  unfold all_mode_core
  rw [if_neg h]
  rcases db0 with _ | ⟨d, rest⟩
  · show _ ∧ _ ∧ _
    simp only [deletePhase, List.isEmpty_nil, if_true]
    by_cases hp :
        (insertPhase [] (extractNames players)).pending.isEmpty <;>
      simp [hp]
  · show _ ∧ _ ∧ _
    simp only [List.isEmpty_cons, Bool.false_eq_true, if_false]
    by_cases hp :
        (insertPhase (deletePhase (extractNames players) (d :: rest)).1
          (extractNames players)).pending.isEmpty <;>
      simp [hp]

/-! ## Claim theorems for the presence-reconciliation mode -/

/-- C1: for every snapshot and every initial persisted set, at the end of
a successful presence-mode reconciliation the persisted set equals the
snapshot player set (as sets of names) whenever the snapshot count is
positive, and is empty whenever the snapshot count is zero. -/
theorem all_mode_convergence (cfg : Config) (playerCount : Nat)
    (players : List (Nat × String)) (serverName : String)
    (db0 : List String) :
    (0 < playerCount → ∀ n : String,
        n ∈ (all_mode_core cfg playerCount players serverName db0).db ↔
          n ∈ extractNames players) ∧
    (playerCount = 0 →
        (all_mode_core cfg playerCount players serverName db0).db = []) := by
  constructor
  · intro hpos n
    rw [(all_mode_core_pos_proj cfg playerCount players serverName db0
      (Nat.pos_iff_ne_zero.mp hpos)).1]
    rw [insertPhase_db_mem]
    constructor
    · rintro (hdb1 | hnames)
      · exact ((deletePhase_db_mem _ db0 n).mp hdb1).2
      · exact hnames
    · intro hnames
      exact Or.inr hnames
  · intro h0
    unfold all_mode_core
    rw [if_pos h0]
    by_cases hdb : db0.isEmpty
    · simp [hdb, List.isEmpty_iff.mp hdb]
    · simp [hdb]

/-- C1 witness. -/
theorem all_mode_convergence_witness :
    "B" ∈ (all_mode_core ⟨"1.2.3.4", 5, 2⟩ 2 [(0, "A"), (2, "B")] "srv"
            ["C"]).db ↔
      "B" ∈ extractNames [(0, "A"), (2, "B")] :=
  (all_mode_convergence ⟨"1.2.3.4", 5, 2⟩ 2 [(0, "A"), (2, "B")] "srv"
    ["C"]).1 (by decide) "B"

/-- C7: in a positive-count reconciliation, the joined list is exactly
the snapshot names absent from the initial persisted set, and exactly one
notification listing all joined names is sent when and only when that
list is non-empty. -/
theorem all_mode_notify_iff_joined (cfg : Config) (playerCount : Nat)
    (players : List (Nat × String)) (serverName : String)
    (db0 : List String) (h : 0 < playerCount) :
    (∀ n : String,
        n ∈ (all_mode_core cfg playerCount players serverName db0).pending ↔
          n ∈ extractNames players ∧ n ∉ db0) ∧
    ((all_mode_core cfg playerCount players serverName db0).pending ≠ [] →
        notifyEvents (all_mode_core cfg playerCount players serverName db0).events =
          [Event.notify joinSubject
            (format_server_info_all cfg serverName playerCount
              (all_mode_core cfg playerCount players serverName db0).pending)]) ∧
    ((all_mode_core cfg playerCount players serverName db0).pending = [] →
        notifyEvents (all_mode_core cfg playerCount players serverName db0).events
          = []) := by
  obtain ⟨hdb, hpend, hev⟩ :=
    all_mode_core_pos_proj cfg playerCount players serverName db0
      (Nat.pos_iff_ne_zero.mp h)
  refine ⟨?_, ?_, ?_⟩
  · intro n
    rw [hpend, insertPhase_pending_mem]
    rw [deletePhase_db_mem]
    constructor
    · rintro ⟨h1, h2⟩
      exact ⟨h1, fun hdb0 => h2 ⟨hdb0, h1⟩⟩
    · rintro ⟨h1, h2⟩
      exact ⟨h1, fun hboth => h2 hboth.1⟩
  · intro hne
    rw [hpend] at hne
    have hpempty : (insertPhase (deletePhase (extractNames players) db0).1
        (extractNames players)).pending.isEmpty = false := by
      rcases hp : (insertPhase (deletePhase (extractNames players) db0).1
          (extractNames players)).pending with _ | ⟨a, l⟩
      · exact absurd hp hne
      · rfl
    rw [hev, hpend, hpempty]
    rw [notifyEvents_append, notifyEvents_append, notifyEvents_deletePhase,
      insertPhase_events_eq, notifyEvents_map_dbPut]
    simp [notifyEvents]
  · intro hnil
    rw [hpend] at hnil
    rw [hev, hnil]
    simp only [List.isEmpty_nil, if_true, List.append_nil]
    rw [notifyEvents_append, notifyEvents_deletePhase,
      insertPhase_events_eq, notifyEvents_map_dbPut]
    rfl

/-- C7 witness. -/
theorem all_mode_notify_iff_joined_witness :
    "B" ∈ (all_mode_core ⟨"1.2.3.4", 5, 2⟩ 2 [(0, "A"), (2, "B")] "srv"
            ["A"]).pending ↔
      "B" ∈ extractNames [(0, "A"), (2, "B")] ∧ "B" ∉ ["A"] :=
  (all_mode_notify_iff_joined ⟨"1.2.3.4", 5, 2⟩ 2 [(0, "A"), (2, "B")]
    "srv" ["A"] (by decide)).1 "B"

/-- C9: in presence-mode reconciliation, a name occurring several times
in the snapshot list is appended to the joined list at most once and
produces at most one persisted-store insert, because the store put for a
name happens eagerly before later occurrences are looked up. -/
theorem all_mode_no_duplicate_inserts (cfg : Config) (playerCount : Nat)
    (players : List (Nat × String)) (serverName : String)
    (db0 : List String) (n : String) :
    (all_mode_core cfg playerCount players serverName db0).pending.count n ≤ 1 ∧
    (all_mode_core cfg playerCount players serverName db0).events.count
      (Event.dbPut n) ≤ 1 := by
  have hput_inj : Function.Injective Event.dbPut := by
    intro a b hab
    injection hab
  by_cases h : playerCount = 0
  · unfold all_mode_core
    rw [if_pos h]
    by_cases hdb : db0.isEmpty
    · simp [hdb]
    · simp only [hdb, Bool.false_eq_true, if_false]
      refine ⟨by simp, ?_⟩
      have : Event.dbPut n ∉ db0.map Event.dbDelete := by
        intro hmem
        rcases List.mem_map.mp hmem with ⟨m, _, heq⟩
        exact Event.noConfusion heq
      simp [List.count_eq_zero.mpr this]
  · obtain ⟨hdb, hpend, hev⟩ :=
      all_mode_core_pos_proj cfg playerCount players serverName db0 h
    have hnodup := insertPhase_pending_nodup (extractNames players)
      (deletePhase (extractNames players) db0).1
    constructor
    · rw [hpend]
      exact List.nodup_iff_count_le_one.mp hnodup n
    · rw [hev, List.count_append, List.count_append]
      have hdel : ((deletePhase (extractNames players) db0).2).count
          (Event.dbPut n) = 0 :=
        List.count_eq_zero.mpr (deletePhase_no_dbPut _ _ _)
      have hins : ((insertPhase (deletePhase (extractNames players) db0).1
          (extractNames players)).events).count (Event.dbPut n) ≤ 1 := by
        rw [insertPhase_events_eq]
        rw [List.count_map_of_injective _ Event.dbPut hput_inj n]
        exact List.nodup_iff_count_le_one.mp hnodup n
      have hnot : (if (insertPhase (deletePhase (extractNames players) db0).1
            (extractNames players)).pending.isEmpty then ([] : List Event)
          else
            [Event.notify joinSubject
              (format_server_info_all cfg serverName playerCount
                (insertPhase (deletePhase (extractNames players) db0).1
                  (extractNames players)).pending)]).count (Event.dbPut n)
          = 0 := by
        split <;> simp
      omega

/-- C8 counterexample: the name-extraction step of the snapshot fetcher
does not deduplicate; a name occurring twice in the query result occurs
twice in the returned collection. -/
theorem extractNames_not_dedup :
    extractNames [(0, "A"), (1, "A")] = ["A", "A"] ∧
    ¬ (extractNames [(0, "A"), (1, "A")]).Nodup := by
  constructor
  · rfl
  · decide

/-- C8 (amended): the snapshot fetcher returns the count together with
the non-empty player names in query order: every empty name is discarded
before any comparison, every non-empty name is kept with its original
multiplicity, and no deduplication is applied. -/
theorem extractNames_filters_empty (players : List (Nat × String)) :
    (∀ n ∈ extractNames players, n ≠ "") ∧
    (∀ n : String, n ≠ "" →
        (extractNames players).count n = (players.map Prod.snd).count n) := by
  induction players with
  | nil => exact ⟨by simp [extractNames], by simp [extractNames]⟩
  | cons p rest ih =>
    constructor
    · intro n hn
      by_cases hp : p.2 = ""
      · rw [extractNames, if_pos hp] at hn
        exact ih.1 n hn
      · rw [extractNames, if_neg hp] at hn
        rcases List.mem_cons.mp hn with rfl | hn
        · exact hp
        · exact ih.1 n hn
    · intro n hn
      by_cases hp : p.2 = ""
      · rw [extractNames, if_pos hp, List.map_cons, List.count_cons]
        have : (p.2 == n) = false := by
          simp only [beq_eq_false_iff_ne]
          intro he
          exact hn (by rw [← he]; exact hp)
        rw [this]
        simpa using ih.2 n hn
      · rw [extractNames, if_neg hp, List.map_cons, List.count_cons,
          List.count_cons]
        rw [ih.2 n hn]

/-- C8 (amended) witness. -/
theorem extractNames_filters_empty_witness :
    (extractNames [(0, "A"), (1, ""), (2, "A")]).count "A" =
      ([(0, "A"), (1, ""), (2, "A")].map Prod.snd).count "A" :=
  (extractNames_filters_empty [(0, "A"), (1, ""), (2, "A")]).2 "A"
    (by decide)

/-! ## Helper lemmas about the threshold gate -/

theorem downloadErrText_ne_emptyTimerText (e : String) :
    downloadErrText e ≠ emptyTimerText := by
  intro h
  have h2 := congrArg String.length h
  rw [downloadErrText, String.length_append] at h2
  have hpre :
      ("Caught exception when downloading timer file from S3. Exception: " :
        String).length = 65 := rfl
  have htgt : (emptyTimerText).length = 20 := rfl
  rw [hpre, htgt] at h2
  omega

theorem uploadErrText_ne_emptyTimerText (e : String) :
    uploadErrText e ≠ emptyTimerText := by
  intro h
  have h2 := congrArg String.length h
  rw [uploadErrText, String.length_append] at h2
  have hpre :
      ("Caught exception when uploading. Exception: " : String).length = 44 :=
    rfl
  have htgt : (emptyTimerText).length = 20 := rfl
  rw [hpre, htgt] at h2
  omega

/-- A blob write can only occur, with a present timer, on the crossing
branch: it carries the value `now + cooldownMinutes*60`, and requires the
target to have passed, a clean download, a successful query with a count
at or above the threshold, and a successful upload. -/
theorem s3Put_mem_some (cfg : Config) (t : Nat) (inp : ThresholdInput)
    (v : Nat)
    (hmem : Event.s3Put v ∈ (threshold_mode cfg (some t) inp).events) :
    v = inp.now + convert_minutes_to_seconds cfg.thresholdTimerMinutes ∧
    0 < t ∧ t ≤ inp.now ∧ inp.downloadErrMsg = none ∧
    inp.uploadErrMsg = none ∧
    ∃ c p s, inp.fetch = FetchResult.ok c p s ∧ 0 < c ∧
      cfg.playerCountThreshold ≤ c := by
  obtain ⟨now, dl, fetch, up⟩ := inp
  rcases dl with _ | e
  · by_cases ht0 : t = 0
    · simp [threshold_mode, handle_error, ht0] at hmem
    · by_cases hlt : now < t
      · simp [threshold_mode, ht0, hlt] at hmem
      · rcases fetch with ⟨c, p, s⟩ | ⟨e⟩
        · by_cases hc0 : c = 0
          · simp [threshold_mode, ht0, hlt, hc0] at hmem
          · by_cases hcth : c < cfg.playerCountThreshold
            · simp [threshold_mode, ht0, hlt, hc0, hcth] at hmem
            · rcases up with _ | e
              · simp only [threshold_mode, if_neg ht0, if_neg hlt,
                  if_neg hc0, if_neg hcth, List.mem_cons,
                  List.not_mem_nil, or_false] at hmem
                rcases hmem with h | h | h
                · exact Event.noConfusion h
                · refine ⟨(Event.s3Put.injEq _ _).mp h,
                    Nat.pos_of_ne_zero ht0, not_lt.mp hlt, rfl, rfl,
                    c, p, s, rfl, Nat.pos_of_ne_zero hc0, not_lt.mp hcth⟩
                · exact Event.noConfusion h
              · simp [threshold_mode, ht0, hlt, hc0, hcth] at hmem
        · simp [threshold_mode, ht0, hlt] at hmem
  · simp [threshold_mode, handle_error] at hmem

/-- With an absent timer, the only possible blob write is the
initialization write of `now + cooldownMinutes*60`. -/
theorem s3Put_mem_none (cfg : Config) (inp : ThresholdInput) (v : Nat)
    (hmem : Event.s3Put v ∈ (threshold_mode cfg none inp).events) :
    v = inp.now + convert_minutes_to_seconds cfg.thresholdTimerMinutes := by
  obtain ⟨now, dl, fetch, up⟩ := inp
  rcases up with _ | e
  · simp only [threshold_mode, handle_timer_file_not_found, List.mem_cons,
      List.not_mem_nil, or_false] at hmem
    rcases hmem with h | h
    · exact (Event.s3Put.injEq _ _).mp h
    · exact Event.noConfusion h
  · simp [threshold_mode, handle_timer_file_not_found, handle_error] at hmem

/-- The persisted timer after one evaluation with a present value: it is
unchanged, or it is re-armed to `now + cooldownMinutes*60` and then the
old target had passed. -/
theorem timer_after_some (cfg : Config) (t : Nat) (inp : ThresholdInput) :
    (threshold_mode cfg (some t) inp).timer = some t ∨
    ((threshold_mode cfg (some t) inp).timer =
        some (inp.now + convert_minutes_to_seconds cfg.thresholdTimerMinutes) ∧
      t ≤ inp.now) := by
  obtain ⟨now, dl, fetch, up⟩ := inp
  rcases dl with _ | e
  · by_cases ht0 : t = 0
    · left; simp [threshold_mode, handle_error, ht0]
    · by_cases hlt : now < t
      · left; simp [threshold_mode, ht0, hlt]
      · rcases fetch with ⟨c, p, s⟩ | ⟨e⟩
        · by_cases hc0 : c = 0
          · left; simp [threshold_mode, ht0, hlt, hc0]
          · by_cases hcth : c < cfg.playerCountThreshold
            · left; simp [threshold_mode, ht0, hlt, hc0, hcth]
            · rcases up with _ | e
              · right
                refine ⟨?_, not_lt.mp hlt⟩
                simp [threshold_mode, ht0, hlt, hc0, hcth]
              · left; simp [threshold_mode, ht0, hlt, hc0, hcth]
        · left; simp [threshold_mode, ht0, hlt]
  · left; simp [threshold_mode, handle_error]

theorem timerAdvances_trans {a b c : Option Nat} (h1 : timerAdvances a b)
    (h2 : timerAdvances b c) : timerAdvances a c := by
  rcases a with _ | x <;> rcases b with _ | y <;> rcases c with _ | z <;>
    (simp only [timerAdvances] at h1 h2 ⊢; try omega)

/-- Single-step monotonicity of the persisted timer. -/
theorem timer_step_advances (cfg : Config) (timer : Option Nat)
    (inp : ThresholdInput) :
    timerAdvances timer (threshold_mode cfg timer inp).timer := by
  rcases timer with _ | t
  · rcases h : (threshold_mode cfg none inp).timer with _ | t2 <;>
      simp [timerAdvances]
  · rcases timer_after_some cfg t inp with h | ⟨h, hle⟩
    · rw [h]; simp [timerAdvances]
    · rw [h]
      show t ≤ inp.now + convert_minutes_to_seconds cfg.thresholdTimerMinutes
      omega

/-- Monotonicity of the persisted timer across any evaluation sequence. -/
theorem timer_seq_advances (cfg : Config) :
    ∀ (inps : List ThresholdInput) (timer : Option Nat),
      timerAdvances timer (timerAfterSeq cfg timer inps) := by
  intro inps
  induction inps with
  | nil =>
    intro timer
    rcases timer with _ | t <;> simp [timerAfterSeq, timerAdvances]
  | cons i rest ih =>
    intro timer
    exact timerAdvances_trans (timer_step_advances cfg timer i)
      (ih (timerAfter cfg timer i))

/-- Once the target has passed (clean download, non-zero parse), the
server is queried on every remaining branch. -/
theorem query_mem_when_passed (cfg : Config) (t : Nat)
    (inp : ThresholdInput) (ht : 0 < t) (hle : t ≤ inp.now)
    (hdl : inp.downloadErrMsg = none) :
    Event.queryServer ∈ (threshold_mode cfg (some t) inp).events := by
  obtain ⟨now, dl, fetch, up⟩ := inp
  subst hdl
  have ht0 : ¬ t = 0 := Nat.pos_iff_ne_zero.mp ht
  have hnlt : ¬ now < t := not_lt.mpr hle
  rcases fetch with ⟨c, p, s⟩ | ⟨e⟩
  · by_cases hc0 : c = 0
    · simp [threshold_mode, ht0, hnlt, hc0]
    · by_cases hcth : c < cfg.playerCountThreshold
      · simp [threshold_mode, ht0, hnlt, hc0, hcth]
      · rcases up with _ | e <;> simp [threshold_mode, ht0, hnlt, hc0, hcth]
  · simp [threshold_mode, ht0, hnlt]

/-! ## Claim theorems for the threshold gate -/

/-- C2: with an armed timer whose target has passed, a clean store read,
and a fetched player count at or above the (validated, positive)
threshold, the gate persists `newTargetTime = now + cooldownMinutes*60`
(overwriting the old value) strictly before sending exactly one
notification; and with a present timer, the crossing branch is the only
one whose trace carries both a persist and a notification. -/
theorem threshold_crossing_persists_then_notifies (cfg : Config) (t : Nat)
    (inp : ThresholdInput) (playerCount : Nat)
    (players : List (Nat × String)) (serverName : String)
    (ht : 0 < t) (hpassed : t ≤ inp.now)
    (hdl : inp.downloadErrMsg = none)
    (hfetch : inp.fetch = FetchResult.ok playerCount players serverName)
    (hthpos : 0 < cfg.playerCountThreshold)
    (hth : cfg.playerCountThreshold ≤ playerCount)
    (hup : inp.uploadErrMsg = none) :
    threshold_mode cfg (some t) inp =
      ⟨some (inp.now + convert_minutes_to_seconds cfg.thresholdTimerMinutes),
        [Event.queryServer,
          Event.s3Put
            (inp.now + convert_minutes_to_seconds cfg.thresholdTimerMinutes),
          Event.notify thresholdSubject
            (format_server_info_threshold cfg serverName playerCount
              (inp.now + convert_minutes_to_seconds cfg.thresholdTimerMinutes))],
        Except.ok ⟨200, "Email sent successfully"⟩⟩ ∧
    (∀ (t2 : Nat) (inp2 : ThresholdInput) (v : Nat),
        Event.s3Put v ∈ (threshold_mode cfg (some t2) inp2).events →
        (∃ s m, Event.notify s m ∈ (threshold_mode cfg (some t2) inp2).events) →
        0 < t2 ∧ t2 ≤ inp2.now ∧ inp2.downloadErrMsg = none ∧
          inp2.uploadErrMsg = none ∧
          ∃ c2 p2 sn2, inp2.fetch = FetchResult.ok c2 p2 sn2 ∧ 0 < c2 ∧
            cfg.playerCountThreshold ≤ c2) := by
  constructor
  · obtain ⟨now, dl, fetch, up⟩ := inp
    subst hdl
    subst hfetch
    subst hup
    have ht0 : ¬ t = 0 := Nat.pos_iff_ne_zero.mp ht
    have hnlt : ¬ now < t := not_lt.mpr hpassed
    have hc0 : ¬ playerCount = 0 :=
      Nat.pos_iff_ne_zero.mp (lt_of_lt_of_le hthpos hth)
    have hcth : ¬ playerCount < cfg.playerCountThreshold := not_lt.mpr hth
    simp only [threshold_mode]
    rw [if_neg ht0, if_neg hnlt]
    simp only [if_neg hc0, if_neg hcth]
    rfl
  · intro t2 inp2 v hput _hnotify
    have h := s3Put_mem_some cfg t2 inp2 v hput
    exact ⟨h.2.1, h.2.2.1, h.2.2.2.1, h.2.2.2.2.1, h.2.2.2.2.2⟩

/-- C2 witness. -/
theorem threshold_crossing_persists_then_notifies_witness :
    threshold_mode ⟨"1.2.3.4", 5, 2⟩ (some 50)
        ⟨100, none, FetchResult.ok 7 [] "srv", none⟩ =
      ⟨some (100 + convert_minutes_to_seconds 2),
        [Event.queryServer,
          Event.s3Put (100 + convert_minutes_to_seconds 2),
          Event.notify thresholdSubject
            (format_server_info_threshold ⟨"1.2.3.4", 5, 2⟩ "srv" 7
              (100 + convert_minutes_to_seconds 2))],
        Except.ok ⟨200, "Email sent successfully"⟩⟩ :=
  (threshold_crossing_persists_then_notifies ⟨"1.2.3.4", 5, 2⟩ 50
    ⟨100, none, FetchResult.ok 7 [] "srv", none⟩ 7 [] "srv"
    (by decide) (by decide) rfl rfl (by decide) (by decide) rfl).1

/-- C3: every persisted write of the timer carries exactly
`now + cooldownMinutes*60` (hence a value at or after the decision
instant), an overwrite of a present value happens only once its target
has passed, and across any sequence of evaluations the persisted value,
once present, never disappears and never decreases. -/
theorem timer_monotonically_forward (cfg : Config) :
    (∀ (timer : Option Nat) (inp : ThresholdInput) (v : Nat),
        Event.s3Put v ∈ (threshold_mode cfg timer inp).events →
          v = inp.now + convert_minutes_to_seconds cfg.thresholdTimerMinutes ∧
          inp.now ≤ v) ∧
    (∀ (t : Nat) (inp : ThresholdInput) (v : Nat),
        Event.s3Put v ∈ (threshold_mode cfg (some t) inp).events →
          t ≤ inp.now) ∧
    (∀ (timer : Option Nat) (inps : List ThresholdInput),
        timerAdvances timer (timerAfterSeq cfg timer inps)) := by
  refine ⟨?_, ?_, ?_⟩
  · intro timer inp v hmem
    rcases timer with _ | t
    · have h := s3Put_mem_none cfg inp v hmem
      exact ⟨h, by omega⟩
    · have h := (s3Put_mem_some cfg t inp v hmem).1
      exact ⟨h, by omega⟩
  · intro t inp v hmem
    exact (s3Put_mem_some cfg t inp v hmem).2.2.1
  · intro timer inps
    exact timer_seq_advances cfg inps timer

/-- C3 witness. -/
theorem timer_monotonically_forward_witness :
    (220 : Nat) = 100 + convert_minutes_to_seconds 2 ∧ (100 : Nat) ≤ 220 :=
  (timer_monotonically_forward ⟨"1.2.3.4", 5, 2⟩).1 none
    ⟨100, none, FetchResult.ok 7 [] "srv", none⟩ 220 (by decide)

/-- C4: whenever `now < targetTime` (with a clean store read), the
evaluation is suppressed: the timer is untouched, the trace is empty (no
store mutation, no server query, no notification) and a SUCCESS envelope
with an explanatory message is returned; and the comparison is
inclusive: at `now = targetTime` the gate proceeds to query the
server. -/
theorem gate_suppression_before_target (cfg : Config) (t : Nat)
    (inp : ThresholdInput) (h : inp.now < t)
    (hdl : inp.downloadErrMsg = none) :
    threshold_mode cfg (some t) inp =
      ⟨some t, [], Except.ok ⟨200, suppressedBody⟩⟩ ∧
    (∀ (t2 : Nat) (inp2 : ThresholdInput), 0 < t2 →
        inp2.downloadErrMsg = none → inp2.now = t2 →
        Event.queryServer ∈ (threshold_mode cfg (some t2) inp2).events) := by
  constructor
  · obtain ⟨now, dl, fetch, up⟩ := inp
    subst hdl
    have ht0 : ¬ t = 0 := by omega
    simp only [threshold_mode]
    rw [if_neg ht0, if_pos h]
    rfl
  · intro t2 inp2 ht2 hdl2 heq
    exact query_mem_when_passed cfg t2 inp2 ht2 (le_of_eq heq.symm) hdl2

/-- C4 witness. -/
theorem gate_suppression_before_target_witness :
    threshold_mode ⟨"1.2.3.4", 5, 2⟩ (some 150)
        ⟨100, none, FetchResult.ok 7 [] "srv", none⟩ =
      ⟨some 150, [], Except.ok ⟨200, suppressedBody⟩⟩ :=
  (gate_suppression_before_target ⟨"1.2.3.4", 5, 2⟩ 150
    ⟨100, none, FetchResult.ok 7 [] "srv", none⟩ (by decide) rfl).1

/-- C5: with the persisted timer absent (and a clean upload), the gate
initializes `targetTime = now + cooldownMinutes*60`, persists it, sends
one notification, never queries the server, and reports the outcome with
the FAILURE status code 300 even though it is an expected first-run
condition. -/
theorem gate_initialization_on_absence (cfg : Config)
    (inp : ThresholdInput) (hup : inp.uploadErrMsg = none) :
    threshold_mode cfg none inp =
      ⟨some (inp.now + convert_minutes_to_seconds cfg.thresholdTimerMinutes),
        [Event.s3Put
            (inp.now + convert_minutes_to_seconds cfg.thresholdTimerMinutes),
          Event.notify noTimerFileSubject
            (noTimerFileText
              (inp.now + convert_minutes_to_seconds cfg.thresholdTimerMinutes))],
        Except.ok ⟨FAILURE_STATUS_CODE,
          noTimerFileText
            (inp.now + convert_minutes_to_seconds cfg.thresholdTimerMinutes)⟩⟩ ∧
    Event.queryServer ∉ (threshold_mode cfg none inp).events ∧
    FAILURE_STATUS_CODE = 300 := by
  obtain ⟨now, dl, fetch, up⟩ := inp
  subst hup
  refine ⟨rfl, ?_, rfl⟩
  simp [threshold_mode, handle_timer_file_not_found]

/-- C5 witness. -/
theorem gate_initialization_on_absence_witness :
    threshold_mode ⟨"1.2.3.4", 5, 2⟩ none
        ⟨100, none, FetchResult.ok 7 [] "srv", none⟩ =
      ⟨some (100 + convert_minutes_to_seconds 2),
        [Event.s3Put (100 + convert_minutes_to_seconds 2),
          Event.notify noTimerFileSubject
            (noTimerFileText (100 + convert_minutes_to_seconds 2))],
        Except.ok ⟨FAILURE_STATUS_CODE,
          noTimerFileText (100 + convert_minutes_to_seconds 2)⟩⟩ :=
  (gate_initialization_on_absence ⟨"1.2.3.4", 5, 2⟩
    ⟨100, none, FetchResult.ok 7 [] "srv", none⟩ rfl).1

/-- C6 counterexample: a snapshot query failure is NOT converted at the
boundary; at this concrete input the exception escapes the invocation
uncaught and no notification is sent, contradicting the claim that every
fatal condition yields one error notification plus a FAILURE envelope. -/
theorem snapshot_query_error_escapes_uncaught :
    (threshold_mode ⟨"1.2.3.4", 5, 2⟩ (some 10)
        ⟨20, none, FetchResult.err "query failed", none⟩).result =
      Except.error "query failed" ∧
    notifyEvents (threshold_mode ⟨"1.2.3.4", 5, 2⟩ (some 10)
        ⟨20, none, FetchResult.err "query failed", none⟩).events = [] ∧
    (all_mode ⟨"1.2.3.4", 5, 2⟩ (FetchResult.err "query failed")
        ["A"]).result = Except.error "query failed" :=
  ⟨rfl, rfl, rfl⟩

/-- C6 (amended): fatal conditions arising from the persisted-timer blob
handling (a download error other than not-found, an empty/zero timer
parse, an upload error during initialization or re-arm) are each
converted at the boundary into exactly one error notification plus a
FAILURE (`300`) envelope; but a snapshot query failure is not caught: in
both modes it escapes the invocation uncaught, with no notification. -/
theorem fatal_error_boundary (cfg : Config) :
    (∀ (t : Nat) (inp : ThresholdInput) (e : String),
        inp.downloadErrMsg = some e →
        threshold_mode cfg (some t) inp =
          ⟨some t, [Event.notify errorSubject (downloadErrText e)],
            Except.ok ⟨300, downloadErrText e⟩⟩) ∧
    (∀ (inp : ThresholdInput) (e : String), inp.uploadErrMsg = some e →
        threshold_mode cfg none inp =
          ⟨none, [Event.notify errorSubject (uploadErrText e)],
            Except.ok ⟨300, uploadErrText e⟩⟩) ∧
    (∀ (t : Nat) (inp : ThresholdInput) (e : String) (c : Nat)
        (p : List (Nat × String)) (s : String),
        0 < t → t ≤ inp.now → inp.downloadErrMsg = none →
        inp.fetch = FetchResult.ok c p s → 0 < c →
        cfg.playerCountThreshold ≤ c → inp.uploadErrMsg = some e →
        threshold_mode cfg (some t) inp =
          ⟨some t,
            [Event.queryServer, Event.notify errorSubject (uploadErrText e)],
            Except.ok ⟨300, uploadErrText e⟩⟩) ∧
    (∀ (inp : ThresholdInput), inp.downloadErrMsg = none →
        threshold_mode cfg (some 0) inp =
          ⟨some 0, [Event.notify errorSubject emptyTimerText],
            Except.ok ⟨300, emptyTimerText⟩⟩) ∧
    (∀ (t : Nat) (inp : ThresholdInput) (e : String),
        0 < t → t ≤ inp.now → inp.downloadErrMsg = none →
        inp.fetch = FetchResult.err e →
        (threshold_mode cfg (some t) inp).result = Except.error e ∧
        notifyEvents (threshold_mode cfg (some t) inp).events = []) ∧
    (∀ (db0 : List String) (e : String),
        (all_mode cfg (FetchResult.err e) db0).result = Except.error e ∧
        (all_mode cfg (FetchResult.err e) db0).db = db0 ∧
        notifyEvents (all_mode cfg (FetchResult.err e) db0).events = []) := by
  refine ⟨?_, ?_, ?_, ?_, ?_, ?_⟩
  · intro t inp e hdl
    obtain ⟨now, dl, fetch, up⟩ := inp
    subst hdl
    rfl
  · intro inp e hup
    obtain ⟨now, dl, fetch, up⟩ := inp
    subst hup
    rfl
  · intro t inp e c p s ht hle hdl hfetch hcpos hth hup
    obtain ⟨now, dl, fetch, up⟩ := inp
    subst hdl
    subst hfetch
    subst hup
    have ht0 : ¬ t = 0 := Nat.pos_iff_ne_zero.mp ht
    have hnlt : ¬ now < t := not_lt.mpr hle
    have hc0 : ¬ c = 0 := Nat.pos_iff_ne_zero.mp hcpos
    have hcth : ¬ c < cfg.playerCountThreshold := not_lt.mpr hth
    simp only [threshold_mode]
    rw [if_neg ht0, if_neg hnlt]
    simp only [if_neg hc0, if_neg hcth]
    rfl
  · intro inp hdl
    obtain ⟨now, dl, fetch, up⟩ := inp
    subst hdl
    rfl
  · intro t inp e ht hle hdl hfetch
    obtain ⟨now, dl, fetch, up⟩ := inp
    subst hdl
    subst hfetch
    have ht0 : ¬ t = 0 := Nat.pos_iff_ne_zero.mp ht
    have hnlt : ¬ now < t := not_lt.mpr hle
    constructor
    · simp only [threshold_mode]
      rw [if_neg ht0, if_neg hnlt]
    · simp only [threshold_mode]
      rw [if_neg ht0, if_neg hnlt]
      rfl
  · intro db0 e
    exact ⟨rfl, rfl, rfl⟩

/-- C6 (amended) witness. -/
theorem fatal_error_boundary_witness :
    threshold_mode ⟨"1.2.3.4", 5, 2⟩ (some 10)
        ⟨20, some "socket closed", FetchResult.ok 7 [] "srv", none⟩ =
      ⟨some 10,
        [Event.notify errorSubject (downloadErrText "socket closed")],
        Except.ok ⟨300, downloadErrText "socket closed"⟩⟩ :=
  (fatal_error_boundary ⟨"1.2.3.4", 5, 2⟩).1 10
    ⟨20, some "socket closed", FetchResult.ok 7 [] "srv", none⟩
    "socket closed" rfl

/-- C10: a persisted timer blob parsing to the integer `0` is treated as
the fatal condition "Timer file was empty" (one error notification plus
a FAILURE `300` envelope, no store mutation), not as a passed target
time; and for every positive parsed value the evaluation never produces
that error result. -/
theorem timer_zero_is_empty_error (cfg : Config) (inp : ThresholdInput)
    (hdl : inp.downloadErrMsg = none) :
    threshold_mode cfg (some 0) inp =
      ⟨some 0, [Event.notify errorSubject emptyTimerText],
        Except.ok ⟨300, emptyTimerText⟩⟩ ∧
    (∀ (t : Nat) (inp2 : ThresholdInput), 0 < t →
        (threshold_mode cfg (some t) inp2).result ≠
          Except.ok ⟨300, emptyTimerText⟩) := by
  constructor
  · obtain ⟨now, dl, fetch, up⟩ := inp
    subst hdl
    rfl
  · intro t inp2 ht
    obtain ⟨now, dl, fetch, up⟩ := inp2
    have ht0 : ¬ t = 0 := Nat.pos_iff_ne_zero.mp ht
    rcases dl with _ | e
    · by_cases hlt : now < t
      · simp [threshold_mode, ht0, hlt, generate_return_message,
          SUCCESS_STATUS_CODE]
      · rcases fetch with ⟨c, p, s⟩ | ⟨e⟩
        · by_cases hc0 : c = 0
          · simp [threshold_mode, ht0, hlt, hc0, generate_return_message,
              SUCCESS_STATUS_CODE]
          · by_cases hcth : c < cfg.playerCountThreshold
            · simp [threshold_mode, ht0, hlt, hc0, hcth,
                generate_return_message, SUCCESS_STATUS_CODE]
            · rcases up with _ | e
              · simp [threshold_mode, ht0, hlt, hc0, hcth,
                  generate_return_message, SUCCESS_STATUS_CODE]
              · simp only [threshold_mode, if_neg ht0, if_neg hlt,
                  if_neg hc0, if_neg hcth]
                intro hcontra
                have := (ResultEnvelope.mk.injEq _ _ _ _).mp
                  (Except.ok.injEq _ _ |>.mp hcontra)
                exact uploadErrText_ne_emptyTimerText e this.2
        · simp [threshold_mode, ht0, hlt]
    · simp only [threshold_mode]
      intro hcontra
      have := (ResultEnvelope.mk.injEq _ _ _ _).mp
        (Except.ok.injEq _ _ |>.mp hcontra)
      exact downloadErrText_ne_emptyTimerText e this.2

/-- C10 witness. -/
theorem timer_zero_is_empty_error_witness :
    threshold_mode ⟨"1.2.3.4", 5, 2⟩ (some 0)
        ⟨100, none, FetchResult.ok 7 [] "srv", none⟩ =
      ⟨some 0, [Event.notify errorSubject emptyTimerText],
        Except.ok ⟨300, emptyTimerText⟩⟩ :=
  (timer_zero_is_empty_error ⟨"1.2.3.4", 5, 2⟩
    ⟨100, none, FetchResult.ok 7 [] "srv", none⟩ rfl).1

end TF2Notifier
